import Mathlib

/-!
Verification of the daily content cache of the nasa-apod repository
(src/services/nasaLibrary.js), shallowly embedded in Lean 4.

Modelling conventions:
- JavaScript strings are Lean `String`; an absent (undefined) string field
  of an API item is modelled as the empty string "", which behaves the same
  under the sources falsy checks (`||`, `!x`) and comparisons.
- The network is an oracle `net : String → FetchResponse` from the search
  topic to the response, since the request URL is a fixed function of the
  topic. A rejected transport or an unparsable body is `transportError`, a
  non-success HTTP status is `httpError`.
- The unseeded randomized `sort` is an arbitrary function parameter
  `shuffle`; JavaScript `Array.prototype.sort` always permutes the array,
  so theorems that need it assume the permutation (length) property.
- The file system is an oracle `FsEnv` (existing files, download success,
  thrown file-system errors) plus the cache directory URI; the metadata
  file is the `CacheState`. Writes that the source performs best-effort are
  modelled as succeeding.
- The current instant is `todayMs`, the milliseconds elapsed since Dec 31,
  00:00 of the previous year (the value of `today - new Date(year, 0, 0)`),
  and `todayStr`, the ISO date string produced by `getTodayDateString`.
-/

/-- JavaScript `a || b` on strings with absent modelled as "". -/
def jsOr (a b : String) : String :=
  if a = "" then b else a

/-- Fixed topic rotation, `TOPICS` in the source. -/
def TOPICS : List String :=
  ["james webb", "nebula", "black hole", "deep field", "planets", "galaxy"]

/-- Milliseconds in one day, the divisor in `getTodayTopic`. -/
def msPerDay : Nat := 1000 * 60 * 60 * 24

/-- Day-of-year as the source computes it: floor of the millisecond
difference from Dec 31, 00:00 of the previous year over one day. -/
def dayOfYear (nowMs : Nat) : Nat := nowMs / msPerDay

/-- Indexing a topic list by day-of-year modulo its length (the expression
`TOPICS[dayOfYear % TOPICS.length]`), for an arbitrary list. -/
def topicFor (topics : List String) (d : Nat) : String :=
  topics.getD (d % topics.length) ""

/-- The function `getTodayTopic` of the source. -/
def getTodayTopic (nowMs : Nat) : String :=
  topicFor TOPICS (dayOfYear nowMs)

/-- One entry of an API items `data` array; absent fields are "". -/
structure NasaItemData where
  media_type : String
  nasa_id : String
  title : String
  description : String
  date_created : String
  location : String
  photographer : String
  secondary_creator : String
deriving DecidableEq, Inhabited, Repr

/-- One entry of an API items `links` array; absent fields are "". -/
structure NasaLink where
  rel : String
  href : String
deriving DecidableEq, Inhabited, Repr

/-- One item of the API response collection. -/
structure NasaItem where
  data : List NasaItemData
  links : List NasaLink
deriving DecidableEq, Inhabited, Repr

/-- One curated image record as built by `fetchNASALibraryImages`;
`localPath` is `none` until `cacheImages` populates it. -/
structure ImageRecord where
  id : String
  title : String
  description : String
  date : String
  location : String
  photographer : String
  url : String
  hdurl : String
  localPath : Option String
deriving DecidableEq, Inhabited, Repr

/-- Outcome of the HTTP request in `fetchNASALibraryImages`. -/
inductive FetchResponse where
  | transportError : FetchResponse
  | httpError : FetchResponse
  | ok : List NasaItem → FetchResponse
deriving Inhabited

/-- Environment of the remote fetcher: network oracle, the randomized
shuffle, and the current instant (used when no topic is passed). -/
structure FetchEnv where
  net : String → FetchResponse
  shuffle : List NasaItem → List NasaItem

/-- The filter of `fetchNASALibraryImages`: media type of the first data
entry is "image" and its description is longer than 50 characters. -/
def isValidItem (item : NasaItem) : Bool :=
  match item.data.head? with
  | some d => d.media_type == "image" && decide (50 < d.description.length)
  | none => false

/-- The href of a link selected by relation tag, with the fallback chain
`links.find(rel)?.href || links[0]?.href || ""` of the source. -/
def pickHref (rel : String) (links : List NasaLink) : String :=
  jsOr (match links.find? (fun l => l.rel == rel) with
        | some l => l.href
        | none => "")
       (match links.head? with
        | some l => l.href
        | none => "")

/-- The record constructor in the `map` of `fetchNASALibraryImages`. -/
def toImageRecord (item : NasaItem) : ImageRecord :=
  { id := (item.data.headD default).nasa_id
    title := (item.data.headD default).title
    description := (item.data.headD default).description
    date := (item.data.headD default).date_created
    location := (item.data.headD default).location
    photographer := jsOr (item.data.headD default).photographer
                         (item.data.headD default).secondary_creator
    url := pickHref "preview" item.links
    hdurl := pickHref "original" item.links
    localPath := none }

/-- The search topic actually used: the argument if given and non-empty,
otherwise the topic of the day (`topic || getTodayTopic()`). -/
def searchTopicOf (nowMs : Nat) (topic : Option String) : String :=
  match topic with
  | some t => jsOr t (getTodayTopic nowMs)
  | none => getTodayTopic nowMs

/-- The function `fetchNASALibraryImages` of the source: query the network
oracle, on error return [], otherwise filter, shuffle, take `count`, map. -/
def fetchNASALibraryImages (env : FetchEnv) (nowMs : Nat)
    (topic : Option String) (count : Nat) : List ImageRecord :=
  match env.net (searchTopicOf nowMs topic) with
  | FetchResponse.transportError => []
  | FetchResponse.httpError => []
  | FetchResponse.ok items =>
      let validImages := items.filter isValidItem
      let shuffled := env.shuffle validImages
      (shuffled.take count).map toImageRecord

/-- File-system oracle for `cacheImages`: the cache directory URI, which
files already exist, which downloads succeed, and which per-file operations
throw (the outer catch of the loop body). -/
structure FsEnv where
  cacheDirUri : String
  fileExists : String → Bool
  downloadOk : String → Bool
  ioFail : String → Bool

/-- URI of a file of the cache directory (`new File(imageDir, name).uri`). -/
def localFileUri (fs : FsEnv) (filename : String) : String :=
  fs.cacheDirUri ++ "/" ++ filename

/-- One iteration of the loop of `cacheImages`, for a record whose url is
non-empty: the `localPath` value it pushes and the files written so far.
The outer catch falls back to the remote url; an already existing file (on
disk or written earlier in this run) is reused; a successful download
writes the file; a failed download falls back to the remote url. -/
def cacheStep (fs : FsEnv) (written : List String) (image : ImageRecord) :
    String × List String :=
  let filename := image.id ++ ".jpg"
  if fs.ioFail filename then
    (image.url, written)
  else if fs.fileExists filename || decide (filename ∈ written) then
    (localFileUri fs filename, written)
  else if fs.downloadOk image.url then
    (localFileUri fs filename, filename :: written)
  else
    (image.url, written)

/-- The loop of `cacheImages`, threading the set of files written by the
downloads of earlier iterations. Records with an empty url are skipped. -/
def cacheImagesGo (fs : FsEnv) (written : List String) :
    List ImageRecord → List ImageRecord
  | [] => []
  | image :: rest =>
      if image.url = "" then cacheImagesGo fs written rest
      else
        let p := cacheStep fs written image
        { image with localPath := some p.1 } :: cacheImagesGo fs p.2 rest

/-- The function `cacheImages` of the source. -/
def cacheImages (fs : FsEnv) (images : List ImageRecord) : List ImageRecord :=
  cacheImagesGo fs [] images

/-- The persisted metadata record (`image_metadata.json`). -/
structure CacheMetadata where
  lastFetchDate : Option String
  images : List ImageRecord
deriving DecidableEq, Inhabited, Repr

/-- The metadata written by `initImageCache` on first run. -/
def defaultMetadata : CacheMetadata :=
  { lastFetchDate := none, images := [] }

/-- The persisted state the orchestrator touches: the metadata file, or
`none` when it does not exist. -/
structure CacheState where
  metaFile : Option CacheMetadata
deriving DecidableEq, Inhabited, Repr

/-- The function `initImageCache` of the source: create the metadata file
with default content when absent. -/
def initImageCache (s : CacheState) : CacheState :=
  match s.metaFile with
  | some _ => s
  | none => { metaFile := some defaultMetadata }

/-- The function `getCachedImagesMeta` of the source: the file content, or
the default when the file is absent. -/
def getCachedImagesMeta (s : CacheState) : CacheMetadata :=
  match s.metaFile with
  | some m => m
  | none => defaultMetadata

/-- The function `saveCachedImagesMeta` of the source: overwrite in full. -/
def saveCachedImagesMeta (_s : CacheState) (m : CacheMetadata) : CacheState :=
  { metaFile := some m }

/-- Environment of one `getCuratedImages` invocation: the current date
string, the current instant, the network, the shuffle and the file system. -/
structure Env where
  todayStr : String
  todayMs : Nat
  net : String → FetchResponse
  shuffle : List NasaItem → List NasaItem
  fs : FsEnv

/-- The fetcher environment of an orchestrator environment. -/
def fetchEnvOf (env : Env) : FetchEnv :=
  { net := env.net, shuffle := env.shuffle }

/-- Observable outcome of one `getCuratedImages` invocation: the returned
sequence, the state left behind, and whether a network request was made. -/
structure RunResult where
  result : List ImageRecord
  state : CacheState
  networkCalled : Bool
deriving DecidableEq, Inhabited, Repr

/-- The images the orchestrator fetches on the stale path
(`fetchNASALibraryImages(getTodayTopic(), 2)`). -/
def staleFetch (env : Env) : List ImageRecord :=
  fetchNASALibraryImages (fetchEnvOf env) env.todayMs
    (some (getTodayTopic env.todayMs)) 2

/-- The function `getCuratedImages` of the source: initialize the cache,
read the metadata, serve it when fresh, otherwise fetch, cache, persist
and return the new records, falling back to the stored ones when the
fetch came back empty. Intermediate values of the source (`metadata`,
`images`, `cachedImages`) are written inline. -/
def getCuratedImages (env : Env) (s0 : CacheState) : RunResult :=
  if (getCachedImagesMeta (initImageCache s0)).lastFetchDate = some env.todayStr
     ∧ 0 < (getCachedImagesMeta (initImageCache s0)).images.length then
    { result := (getCachedImagesMeta (initImageCache s0)).images,
      state := initImageCache s0, networkCalled := false }
  else if 0 < (staleFetch env).length then
    { result := cacheImages env.fs (staleFetch env),
      state := saveCachedImagesMeta (initImageCache s0)
        { lastFetchDate := some env.todayStr,
          images := cacheImages env.fs (staleFetch env) },
      networkCalled := true }
  else
    { result := (getCachedImagesMeta (initImageCache s0)).images,
      state := initImageCache s0, networkCalled := true }

/-!
Concrete sample data, used by the closed witness and counterexample
theorems below.
-/

/-- A description of 52 characters, passing the length filter. -/
def sampleDescription : String :=
  "0123456789012345678901234567890123456789012345678901"

/-- An API item with image media type, a long description and both a
preview and an original link. -/
def sampleItem : NasaItem :=
  { data := [{ media_type := "image", nasa_id := "n1", title := "t1",
               description := sampleDescription, date_created := "2020-01-01",
               location := "", photographer := "", secondary_creator := "sc" }],
    links := [{ rel := "preview", href := "http://img/p1" },
              { rel := "original", href := "http://img/o1" }] }

/-- An API item passing the filter but carrying no links at all, so the
derived record has an empty url. -/
def sampleItemNoLinks : NasaItem :=
  { data := [{ media_type := "image", nasa_id := "n2", title := "t2",
               description := sampleDescription, date_created := "2020-01-02",
               location := "loc", photographer := "ph", secondary_creator := "sc" }],
    links := [] }

/-- An API item rejected by the filter (media type video). -/
def sampleVideoItem : NasaItem :=
  { data := [{ media_type := "video", nasa_id := "n3", title := "t3",
               description := sampleDescription, date_created := "2020-01-03",
               location := "", photographer := "", secondary_creator := "" }],
    links := [{ rel := "preview", href := "http://img/p3" }] }

/-- A fetcher environment whose network always answers with two valid
items, shuffled by the identity permutation. -/
def sampleFetchEnv : FetchEnv :=
  { net := fun _ => FetchResponse.ok [sampleItem, sampleItemNoLinks],
    shuffle := id }

/-- A fetcher environment whose network always answers a non-success
HTTP status. -/
def httpErrFetchEnv : FetchEnv :=
  { net := fun _ => FetchResponse.httpError, shuffle := id }

/-- A file-system oracle with an empty cache where every download
succeeds. -/
def sampleFs : FsEnv :=
  { cacheDirUri := "file:///cache/cached_images",
    fileExists := fun _ => false,
    downloadOk := fun _ => true,
    ioFail := fun _ => false }

/-- An already cached image record. -/
def sampleRecord : ImageRecord :=
  { id := "old1", title := "old", description := "cached yesterday",
    date := "2024-03-09", location := "", photographer := "",
    url := "http://img/old1", hdurl := "http://img/old1",
    localPath := some "file:///cache/cached_images/old1.jpg" }

/-- An orchestrator environment whose store is fresh for its date. -/
def freshEnv : Env :=
  { todayStr := "2024-03-10", todayMs := 3 * msPerDay,
    net := fun _ => FetchResponse.ok [sampleItem, sampleItemNoLinks],
    shuffle := id, fs := sampleFs }

/-- A state whose metadata was stored on 2024-03-10 with one image. -/
def freshState : CacheState :=
  { metaFile := some { lastFetchDate := some "2024-03-10",
                       images := [sampleRecord] } }

/-- A state whose metadata was stored on 2024-03-09 (the previous day). -/
def staleState : CacheState :=
  { metaFile := some { lastFetchDate := some "2024-03-09",
                       images := [sampleRecord] } }

/-- An orchestrator environment whose network always fails with a
non-success HTTP status. -/
def httpErrEnv : Env :=
  { todayStr := "2024-03-10", todayMs := 3 * msPerDay,
    net := fun _ => FetchResponse.httpError, shuffle := id, fs := sampleFs }

/-- An orchestrator environment whose network returns one filter-passing
item that carries no links, so the fetched record has an empty url. -/
def cexEnv : Env :=
  { todayStr := "2024-03-10", todayMs := 3 * msPerDay,
    net := fun _ => FetchResponse.ok [sampleItemNoLinks],
    shuffle := id, fs := sampleFs }

/-!
Theorems.
-/

/-- C8: getTodayTopic is a deterministic function of the current date: it
computes the 1-indexed day-of-year by whole-day truncation, takes it
modulo the length of the fixed 6-entry topic list and indexes into the
list; with topic list ["a", "b"] and day-of-year 3 the scheme yields "b";
two instants of the same day yield the same topic. -/
theorem getTodayTopic_spec (ms1 ms2 : Nat) (h : ms1 / msPerDay = ms2 / msPerDay) :
    getTodayTopic ms1 = getTodayTopic ms2
    ∧ getTodayTopic ms1 = TOPICS.getD (dayOfYear ms1 % TOPICS.length) ""
    ∧ dayOfYear msPerDay = 1
    ∧ TOPICS.length = 6
    ∧ topicFor ["a", "b"] 3 = "b" := by
  refine ⟨?_, rfl, by decide, by decide, by decide⟩
  unfold getTodayTopic dayOfYear
  rw [h]

/-- Witness for C8 at the concrete instants 100 and 200 (same day). -/
theorem getTodayTopic_spec_witness :
    getTodayTopic 100 = getTodayTopic 200
    ∧ getTodayTopic 100 = TOPICS.getD (dayOfYear 100 % TOPICS.length) ""
    ∧ dayOfYear msPerDay = 1
    ∧ TOPICS.length = 6
    ∧ topicFor ["a", "b"] 3 = "b" :=
  getTodayTopic_spec 100 200 (by decide)

/-- C5: when the network request fails in transport (or the body is
unparsable) or the response has a non-success HTTP status, the fetcher
returns the empty sequence; the embedding is a total function, so no
exception propagates. -/
theorem fetchNASALibraryImages_error_empty (env : FetchEnv) (nowMs : Nat)
    (topic : Option String) (count : Nat)
    (h : env.net (searchTopicOf nowMs topic) = FetchResponse.transportError
       ∨ env.net (searchTopicOf nowMs topic) = FetchResponse.httpError) :
    fetchNASALibraryImages env nowMs topic count = [] := by
  unfold fetchNASALibraryImages
  rcases h with h | h <;> rw [h]

/-- Witness for C5: a network that answers HTTP 500 yields []. -/
theorem fetchNASALibraryImages_error_empty_witness :
    fetchNASALibraryImages httpErrFetchEnv 0 none 2 = [] :=
  fetchNASALibraryImages_error_empty httpErrFetchEnv 0 none 2 (Or.inr rfl)

/-- Characterization of the filter of the fetcher as a proposition. -/
theorem isValidItem_iff (item : NasaItem) :
    isValidItem item = true ↔
      ∃ d, item.data.head? = some d ∧ d.media_type = "image"
        ∧ 50 < d.description.length := by
  unfold isValidItem
  cases hd : item.data.head? with
  | none => simp
  | some d => simp

/-- C6: the filtering step keeps exactly the response items whose first
data entry has media type "image" and whose description is strictly longer
than 50 characters; every other item is discarded. -/
theorem fetch_filter_spec (items : List NasaItem) (item : NasaItem) :
    item ∈ items.filter isValidItem ↔
      item ∈ items ∧ ∃ d, item.data.head? = some d ∧ d.media_type = "image"
        ∧ 50 < d.description.length := by
  rw [List.mem_filter, isValidItem_iff]

/-- C9: on a successful response the fetcher returns at most `count`
records, and exactly the size of the filtered candidate pool when that
pool is smaller than `count` (the shuffle, being a permutation, preserves
the length of the pool). -/
theorem fetchNASALibraryImages_count (env : FetchEnv) (nowMs : Nat)
    (topic : Option String) (count : Nat) (items : List NasaItem)
    (hresp : env.net (searchTopicOf nowMs topic) = FetchResponse.ok items)
    (hshuffle : (env.shuffle (items.filter isValidItem)).length
                = (items.filter isValidItem).length) :
    (fetchNASALibraryImages env nowMs topic count).length ≤ count
    ∧ ((items.filter isValidItem).length < count →
        (fetchNASALibraryImages env nowMs topic count).length
          = (items.filter isValidItem).length) := by
  unfold fetchNASALibraryImages
  rw [hresp]
  simp only [List.length_map, List.length_take, hshuffle]
  exact ⟨min_le_left _ _, fun hlt => min_eq_right (le_of_lt hlt)⟩

/-- Witness for C9: two valid items in the pool, count 5. -/
theorem fetchNASALibraryImages_count_witness :
    (fetchNASALibraryImages sampleFetchEnv 0 none 5).length ≤ 5
    ∧ (([sampleItem, sampleItemNoLinks].filter isValidItem).length < 5 →
        (fetchNASALibraryImages sampleFetchEnv 0 none 5).length
          = ([sampleItem, sampleItemNoLinks].filter isValidItem).length) :=
  fetchNASALibraryImages_count sampleFetchEnv 0 none 5
    [sampleItem, sampleItemNoLinks] rfl rfl

/-- Forgetting the `localPath` field, the one field the caching step may
change. -/
def stripLocalPath (r : ImageRecord) : ImageRecord :=
  { r with localPath := none }

/-- The value pushed for a kept record is either the local file URI of the
file named by its id, or the records own remote url. -/
theorem cacheStep_fst (fs : FsEnv) (w : List String) (image : ImageRecord) :
    (cacheStep fs w image).1 = localFileUri fs (image.id ++ ".jpg")
    ∨ (cacheStep fs w image).1 = image.url := by
  unfold cacheStep
  by_cases h1 : fs.ioFail (image.id ++ ".jpg") = true
  · simp [h1]
  · by_cases h2 : (fs.fileExists (image.id ++ ".jpg")
        || decide ((image.id ++ ".jpg") ∈ w)) = true
    · simp [h1, h2]
    · by_cases h3 : fs.downloadOk image.url = true
      · simp [h1, h2, h3]
      · simp [h1, h2, h3]

/-- Two records equal outside `localPath` agree on each of the other
fields. -/
theorem stripLocalPath_fields (r i : ImageRecord)
    (h : stripLocalPath r = stripLocalPath i) :
    r.id = i.id ∧ r.title = i.title ∧ r.description = i.description
    ∧ r.date = i.date ∧ r.location = i.location
    ∧ r.photographer = i.photographer ∧ r.url = i.url ∧ r.hdurl = i.hdurl := by
  cases r
  cases i
  simp only [stripLocalPath, ImageRecord.mk.injEq] at h
  simp_all

/-- Modulo `localPath`, the output of the caching loop is exactly the
input filtered to records with a non-empty url, in order. -/
theorem cacheImagesGo_strip (fs : FsEnv) (images : List ImageRecord) :
    ∀ written, (cacheImagesGo fs written images).map stripLocalPath
      = (images.filter (fun i => i.url != "")).map stripLocalPath := by
  induction images with
  | nil => intro written; rfl
  | cons image rest ih =>
      intro written
      by_cases h : image.url = ""
      · simp [cacheImagesGo, h, ih]
      · simp [cacheImagesGo, h, ih, stripLocalPath]

/-- Membership in the output of the caching loop: each output record comes
from an input record with non-empty url, agrees with it outside
`localPath`, and its `localPath` is the local file URI for that records id
or its remote url. -/
theorem cacheImagesGo_mem (fs : FsEnv) (images : List ImageRecord) :
    ∀ written r, r ∈ cacheImagesGo fs written images →
      ∃ i ∈ images, i.url ≠ "" ∧ stripLocalPath r = stripLocalPath i
        ∧ (r.localPath = some (localFileUri fs (i.id ++ ".jpg"))
           ∨ r.localPath = some i.url) := by
  induction images with
  | nil => intro w r hr; cases hr
  | cons image rest ih =>
      intro w r hr
      by_cases h : image.url = ""
      · rw [cacheImagesGo, if_pos h] at hr
        obtain ⟨i, hi, hu, hstrip, hpath⟩ := ih w r hr
        exact ⟨i, List.mem_cons_of_mem _ hi, hu, hstrip, hpath⟩
      · rw [cacheImagesGo, if_neg h] at hr
        rcases List.mem_cons.mp hr with hEq | hMem
        · refine ⟨image, List.mem_cons_self _ _, h, ?_, ?_⟩
          · rw [hEq]; rfl
          · rw [hEq]
            rcases cacheStep_fst fs w image with hc | hc
            · exact Or.inl (by rw [← hc])
            · exact Or.inr (by rw [← hc])
        · obtain ⟨i, hi, hu, hstrip, hpath⟩ := ih _ r hMem
          exact ⟨i, List.mem_cons_of_mem _ hi, hu, hstrip, hpath⟩

/-- Tool lemma: a local file URI built for a file with the fixed image
extension is never the empty string. -/
theorem localFileUri_ne_empty (fs : FsEnv) (stem : String) :
    localFileUri fs (stem ++ ".jpg") ≠ "" := by
  unfold localFileUri
  intro h
  have hlen := congrArg String.length h
  simp [String.length_append] at hlen
  exact absurd hlen.1.2 (by decide)

/-- C3: every record emitted by the caching step has a populated,
non-empty `localPath`: the local file URI for the records id, or the
records original remote url when the download failed. -/
theorem cacheImages_localPath_populated (fs : FsEnv) (images : List ImageRecord)
    (r : ImageRecord) (hr : r ∈ cacheImages fs images) :
    ∃ p, r.localPath = some p ∧ p ≠ ""
      ∧ (p = localFileUri fs (r.id ++ ".jpg") ∨ p = r.url) := by
  obtain ⟨i, _, hu, hstrip, hpath⟩ := cacheImagesGo_mem fs images [] r hr
  have hid : r.id = i.id := (stripLocalPath_fields r i hstrip).1
  have hurl : r.url = i.url := (stripLocalPath_fields r i hstrip).2.2.2.2.2.2.1
  rcases hpath with hp | hp
  · exact ⟨_, hp, localFileUri_ne_empty fs i.id, Or.inl (by rw [hid])⟩
  · exact ⟨_, hp, by rw [← hurl] at hu ⊢; exact hu, Or.inr hurl.symm⟩

/-- Head of the cached copy of the sample record, for closed witnesses. -/
def sampleCachedHead : ImageRecord :=
  (cacheImages sampleFs [sampleRecord]).headD default

/-- Witness for C3: one record with a working download. -/
theorem cacheImages_localPath_populated_witness :
    ∃ p, sampleCachedHead.localPath = some p ∧ p ≠ ""
      ∧ (p = localFileUri sampleFs (sampleCachedHead.id ++ ".jpg")
         ∨ p = sampleCachedHead.url) :=
  cacheImages_localPath_populated sampleFs [sampleRecord]
    sampleCachedHead (by decide)

/-- C7: the caching step drops exactly the records with an empty remote
url: no output record has an empty url, the output equals (outside
`localPath`) the url-non-empty input records in their original order, and
the output is never longer than the input. -/
theorem cacheImages_skips_and_orders (fs : FsEnv) (images : List ImageRecord) :
    (∀ r ∈ cacheImages fs images, r.url ≠ "")
    ∧ (cacheImages fs images).map stripLocalPath
      = (images.filter (fun i => i.url != "")).map stripLocalPath
    ∧ (cacheImages fs images).length ≤ images.length := by
  refine ⟨?_, cacheImagesGo_strip fs images [], ?_⟩
  · intro r hr
    obtain ⟨i, _, hu, hstrip, _⟩ := cacheImagesGo_mem fs images [] r hr
    have hurl : r.url = i.url := (stripLocalPath_fields r i hstrip).2.2.2.2.2.2.1
    rw [hurl]; exact hu
  · have hmap := cacheImagesGo_strip fs images []
    have hlen := congrArg List.length hmap
    simp only [List.length_map] at hlen
    rw [cacheImages, hlen]
    exact List.length_filter_le _ _

/-- C10: the caching step is a frame: every emitted record agrees with an
input record on all fields other than `localPath` (id, title, description,
date, location, photographer, url, hdurl are unchanged). -/
theorem cacheImages_frame (fs : FsEnv) (images : List ImageRecord)
    (r : ImageRecord) (hr : r ∈ cacheImages fs images) :
    ∃ i ∈ images, r.id = i.id ∧ r.title = i.title
      ∧ r.description = i.description ∧ r.date = i.date
      ∧ r.location = i.location ∧ r.photographer = i.photographer
      ∧ r.url = i.url ∧ r.hdurl = i.hdurl := by
  obtain ⟨i, hi, _, hstrip, _⟩ := cacheImagesGo_mem fs images [] r hr
  exact ⟨i, hi, stripLocalPath_fields r i hstrip⟩

/-- Witness for C10: the cached copy of a sample record keeps its fields. -/
theorem cacheImages_frame_witness :
    ∃ i ∈ [sampleRecord],
      sampleCachedHead.id = i.id
      ∧ sampleCachedHead.title = i.title
      ∧ sampleCachedHead.description = i.description
      ∧ sampleCachedHead.date = i.date
      ∧ sampleCachedHead.location = i.location
      ∧ sampleCachedHead.photographer = i.photographer
      ∧ sampleCachedHead.url = i.url
      ∧ sampleCachedHead.hdurl = i.hdurl :=
  cacheImages_frame sampleFs [sampleRecord] sampleCachedHead (by decide)

/-- Initialization does not change the metadata a reader observes: it only
materializes the default where the file was absent. -/
theorem getCachedImagesMeta_init (s : CacheState) :
    getCachedImagesMeta (initImageCache s) = getCachedImagesMeta s := by
  cases s with
  | mk mf => cases mf <;> rfl

/-- C1: when the stored metadata carries the current date and a non-empty
image sequence, the orchestrator performs no network call, returns exactly
the stored sequence and leaves the state untouched. -/
theorem getCuratedImages_fresh (env : Env) (s : CacheState) (m : CacheMetadata)
    (hm : s.metaFile = some m) (hdate : m.lastFetchDate = some env.todayStr)
    (hne : m.images ≠ []) :
    (getCuratedImages env s).networkCalled = false
    ∧ (getCuratedImages env s).result = m.images
    ∧ (getCuratedImages env s).state = s := by
  have hs : initImageCache s = s := by
    unfold initImageCache
    rw [hm]
  have hmeta : getCachedImagesMeta s = m := by
    unfold getCachedImagesMeta
    rw [hm]
  unfold getCuratedImages
  rw [hs, hmeta, if_pos ⟨hdate, List.length_pos.mpr hne⟩]
  exact ⟨rfl, rfl, rfl⟩

/-- Witness for C1 at a stored state fresh for 2024-03-10. -/
theorem getCuratedImages_fresh_witness :
    (getCuratedImages freshEnv freshState).networkCalled = false
    ∧ (getCuratedImages freshEnv freshState).result
      = ({ lastFetchDate := some "2024-03-10",
           images := [sampleRecord] } : CacheMetadata).images
    ∧ (getCuratedImages freshEnv freshState).state = freshState :=
  getCuratedImages_fresh freshEnv freshState
    { lastFetchDate := some "2024-03-10", images := [sampleRecord] }
    rfl rfl (by decide)

/-- C2: when the invocation is stale and the fetcher returns zero items,
the orchestrator returns the previously stored image sequence (possibly
empty) and the stored metadata, in particular its date, is unchanged. -/
theorem getCuratedImages_emptyFetch (env : Env) (s : CacheState)
    (hstale : ¬ ((getCachedImagesMeta s).lastFetchDate = some env.todayStr
                 ∧ 0 < (getCachedImagesMeta s).images.length))
    (hfetch : staleFetch env = []) :
    (getCuratedImages env s).result = (getCachedImagesMeta s).images
    ∧ getCachedImagesMeta (getCuratedImages env s).state = getCachedImagesMeta s
    ∧ (getCachedImagesMeta (getCuratedImages env s).state).lastFetchDate
      = (getCachedImagesMeta s).lastFetchDate := by
  unfold getCuratedImages
  rw [getCachedImagesMeta_init, if_neg hstale, hfetch, if_neg (by simp)]
  exact ⟨rfl, getCachedImagesMeta_init s, by rw [getCachedImagesMeta_init]⟩

/-- Witness for C2: yesterdays store, HTTP failure today. -/
theorem getCuratedImages_emptyFetch_witness :
    (getCuratedImages httpErrEnv staleState).result
      = (getCachedImagesMeta staleState).images
    ∧ getCachedImagesMeta (getCuratedImages httpErrEnv staleState).state
      = getCachedImagesMeta staleState
    ∧ (getCachedImagesMeta (getCuratedImages httpErrEnv staleState).state).lastFetchDate
      = (getCachedImagesMeta staleState).lastFetchDate :=
  getCuratedImages_emptyFetch httpErrEnv staleState (by decide) rfl

/-- Counterexample to C4 as stated: in `cexEnv` the first call is a
successful refresh in the sense of the source (the stale path runs, the
fetcher returns one image, the metadata file is overwritten with the
current date and the refresh result), yet the very next call on the
resulting state, same day, performs a network fetch again: the fetched
record has an empty url, so the caching step emits nothing, the stored
sequence is empty and the fresh test fails. -/
theorem getCuratedImages_idem_cex :
    (getCuratedImages cexEnv { metaFile := none }).networkCalled = true
    ∧ staleFetch cexEnv ≠ []
    ∧ (getCuratedImages cexEnv { metaFile := none }).state.metaFile
      = some { lastFetchDate := some cexEnv.todayStr,
               images := (getCuratedImages cexEnv { metaFile := none }).result }
    ∧ (getCuratedImages cexEnv
        (getCuratedImages cexEnv { metaFile := none }).state).networkCalled
      = true := by
  decide

/-- C4 (amended): after a successful refresh that stores a non-empty image
sequence, a further call on the resulting state within the same calendar
day takes the fresh path: no network call, the state is untouched, and the
output is exactly the refresh result; iterating the argument extends this
to every further same-day call. -/
theorem getCuratedImages_idem (env env2 : Env) (s : CacheState)
    (hday : env2.todayStr = env.todayStr)
    (hstale : ¬ ((getCachedImagesMeta s).lastFetchDate = some env.todayStr
                 ∧ 0 < (getCachedImagesMeta s).images.length))
    (hfetch : staleFetch env ≠ [])
    (hcached : cacheImages env.fs (staleFetch env) ≠ []) :
    (getCuratedImages env2 (getCuratedImages env s).state).networkCalled = false
    ∧ (getCuratedImages env2 (getCuratedImages env s).state).result
      = (getCuratedImages env s).result
    ∧ (getCuratedImages env2 (getCuratedImages env s).state).state
      = (getCuratedImages env s).state := by
  have h1 : getCuratedImages env s =
      { result := cacheImages env.fs (staleFetch env),
        state := saveCachedImagesMeta (initImageCache s)
          { lastFetchDate := some env.todayStr,
            images := cacheImages env.fs (staleFetch env) },
        networkCalled := true } := by
    unfold getCuratedImages
    rw [getCachedImagesMeta_init, if_neg hstale,
      if_pos (List.length_pos.mpr hfetch)]
  rw [h1]
  unfold getCuratedImages
  rw [if_pos ?cond]
  case cond =>
    constructor
    · rw [hday]
      rfl
    · exact List.length_pos.mpr hcached
  exact ⟨rfl, rfl, rfl⟩

/-- Witness for the amended C4: empty store, a working network and file
system, two same-day invocations. -/
theorem getCuratedImages_idem_witness :
    (getCuratedImages freshEnv (getCuratedImages freshEnv
        { metaFile := none }).state).networkCalled = false
    ∧ (getCuratedImages freshEnv (getCuratedImages freshEnv
        { metaFile := none }).state).result
      = (getCuratedImages freshEnv { metaFile := none }).result
    ∧ (getCuratedImages freshEnv (getCuratedImages freshEnv
        { metaFile := none }).state).state
      = (getCuratedImages freshEnv { metaFile := none }).state :=
  getCuratedImages_idem freshEnv freshEnv { metaFile := none }
    rfl (by decide) (by decide) (by decide)
